import Mathlib

/-!
Verification development for a small SVG-building library (src/svg.py).

The library wraps the standard XML element-tree builder: it opens a root
svg element at construction, offers shape methods (circle, line, rect,
text, circle_sector) that open an element with normalized attributes and
immediately close it, grouping methods (g, defs, text_group) that return
a context handle closing the group tag on scope exit, and a write method
that closes the root and serializes.

Embedding conventions:
* Python attribute values are modelled by `PyVal` with `pyStr` as the
  default string conversion str(value).
* The element-tree builder collaborator (xml.etree.ElementTree.TreeBuilder)
  is not part of the repository; its start/end/data/close event protocol is
  modelled from the spec (an explicit stack of open elements, strict LIFO
  closing, loud failure on mismatch).
* Python keyword-argument semantics at a call site (a caller-supplied
  keyword duplicating an explicitly bound parameter raises TypeError) are
  modelled by `paramCheck` and `kwMerge`, returning `PyErr.duplicateKeyword`.
* Real-valued geometry (math.cos, math.sin, math.pi) is modelled over ℝ;
  the fixed-point rendering of the format directive for floats with six
  digits after the decimal point is modelled by `f6`.
-/

/-- A caller-supplied Python value, as far as the claims need it. -/
inductive PyVal where
  | int (n : ℤ)
  | str (s : String)

/-- Default Python string conversion str(v) for the modelled values. -/
def pyStr : PyVal → String
  | .int n => toString n
  | .str s => s

/-- Models key.replace of underscores by hyphens in `_fix_attrs`
(single-character replace is a per-character map). -/
def fixKey (s : String) : String :=
  ⟨s.data.map (fun c => if c = '_' then '-' else c)⟩

/-- Models `_fix_attrs`: every key has its underscores replaced with
hyphens and every value is converted with str. Keyword-argument dicts are
modelled as association lists in insertion order. -/
def fix_attrs (kw : List (String × PyVal)) : List (String × String) :=
  kw.map (fun p => (fixKey p.1, pyStr p.2))

/-- A finished node of the element tree: an element (with attributes,
optional text and children) or a comment node. -/
inductive Node where
  | elem (tag : String) (attrs : List (String × String)) (text : Option String) (children : List Node)
  | comment (s : String)

/-- A currently-open element on the tree-builder stack. -/
structure OpenE where
  tag : String
  attrs : List (String × String)
  text : Option String
  children : List Node

/-- The state of an SVGBuilder: the stack of open elements (innermost
first) and the most recently closed element (used by close). -/
structure SVGBuilder where
  stack : List OpenE
  lastClosed : Option Node

/-- Errors raised by the modelled Python code: a duplicate keyword
argument at a call site (TypeError), a mismatched or empty-stack end call,
and the close-time assertions of the tree builder. -/
inductive PyErr where
  | duplicateKeyword (name : String)
  | endMismatch (expected : Option String) (actual : String)
  | missingEndTags
  | missingRoot
  | noCurrentElement

/-- Modelled from the spec: the tree-builder collaborator operation
"start an element with tag+attributes" pushes a fresh open element. -/
def SVGBuilder.start (st : SVGBuilder) (tag : String) (attrs : List (String × String)) : SVGBuilder :=
  ⟨⟨tag, attrs, none, []⟩ :: st.stack, st.lastClosed⟩

/-- Modelled from the spec: the tree-builder collaborator operation
"append text data to the current element". Fails when nothing is open. -/
def SVGBuilder.data (st : SVGBuilder) (s : String) : Except PyErr SVGBuilder :=
  match st.stack with
  | [] => .error .noCurrentElement
  | top :: rest => .ok ⟨⟨top.tag, top.attrs, some (top.text.getD "" ++ s), top.children⟩ :: rest, st.lastClosed⟩

/-- Modelled from the spec: the tree-builder collaborator operation
"end the most recently opened element". Every end call must match the
innermost open element in strict LIFO order; a violation fails loudly with
an error naming the expected and actual tags (`end` is a reserved word in
Lean, hence the name `endTag`). -/
def SVGBuilder.endTag (st : SVGBuilder) (tag : String) : Except PyErr SVGBuilder :=
  match st.stack with
  | [] => .error (.endMismatch none tag)
  | top :: rest =>
    if top.tag = tag then
      let nd := Node.elem top.tag top.attrs top.text top.children
      match rest with
      | [] => .ok ⟨[], some nd⟩
      | parent :: rs => .ok ⟨⟨parent.tag, parent.attrs, parent.text, parent.children ++ [nd]⟩ :: rs, some nd⟩
    else .error (.endMismatch (some top.tag) tag)

/-- Modelled from the spec: the tree-builder collaborator operation
"close", returning the root element; fails when elements are still open
or no element was ever produced. -/
def SVGBuilder.close (st : SVGBuilder) : Except PyErr Node :=
  match st.stack, st.lastClosed with
  | [], some nd => .ok nd
  | [], none => .error .missingRoot
  | _ :: _, _ => .error .missingEndTags

/-- Appends a finished node as the last child of the innermost open
element (models appending the construction-time comment through the live
reference to the open root element). -/
def appendChildTop (st : SVGBuilder) (nd : Node) : SVGBuilder :=
  match st.stack with
  | [] => st
  | top :: rest => ⟨⟨top.tag, top.attrs, top.text, top.children ++ [nd]⟩ :: rest, st.lastClosed⟩

/-- Models Python keyword binding at a call site: a caller-supplied
keyword argument whose name duplicates an explicitly bound parameter
raises TypeError (multiple values for the argument). -/
def paramCheck (names : List String) (extras : List (String × PyVal)) : Except PyErr Unit :=
  match extras.find? (fun p => names.contains p.1) with
  | some p => .error (.duplicateKeyword p.1)
  | none => .ok ()

/-- Models Python keyword merging at a call site that passes explicit
keywords together with a splatted dictionary: duplicates raise TypeError,
otherwise the merged keyword dict lists the explicit keywords first. -/
def kwMerge (geo : List (String × PyVal)) (extras : List (String × PyVal)) : Except PyErr (List (String × PyVal)) :=
  match extras.find? (fun p => geo.any (fun q => q.1 = p.1)) with
  | some p => .error (.duplicateKeyword p.1)
  | none => .ok (geo ++ extras)

/-- Association-list update with Python dict assignment semantics: an
existing key keeps its position and gets the new value, a new key is
appended at the end. -/
def dictSet (d : List (String × String)) (k v : String) : List (String × String) :=
  if d.any (fun p => p.1 = k) then d.map (fun p => if p.1 = k then (p.1, v) else p)
  else d ++ [(k, v)]

/-- Models SVGBuilder.__init__: builds the root attribute dict from the
fixed xmlns and version entries merged with the normalized extras, then
assigns width and height when given, opens the root svg element and
appends the provenance comment (the timestamp of datetime.today is the
parameter ts). -/
def SVGBuilder.init (width height : Option PyVal) (extras : List (String × PyVal)) (ts : String) : Except PyErr SVGBuilder :=
  match paramCheck ["width", "height"] extras with
  | .error e => .error e
  | .ok _ =>
    match kwMerge [("xmlns", PyVal.str "http://www.w3.org/2000/svg"), ("version", PyVal.str "1.1")] extras with
    | .error e => .error e
    | .ok merged =>
      let attrs0 := fix_attrs merged
      let attrs1 := match width with
        | some w => dictSet attrs0 "width" (pyStr w)
        | none => attrs0
      let attrs2 := match height with
        | some hv => dictSet attrs1 "height" (pyStr hv)
        | none => attrs1
      .ok (appendChildTop (SVGBuilder.start ⟨[], none⟩ "svg" attrs2)
            (Node.comment ("vbl-stats svg generated at " ++ ts)))

/-- Models a call to SVGBuilder.item with a splatted keyword dict kw:
binding the call raises TypeError when kw carries a key named tag, since
tag is an explicitly bound parameter of item (the keyword-set merge at
the call site, modelled by kwMerge in the callers, happens first, then
parameter binding — matching the CPython error order); the body then
starts the element with normalized attributes and immediately ends it.
The method receiver binding is not modelled: callers pass the state
explicitly. -/
def SVGBuilder.item (st : SVGBuilder) (tag : String) (kw : List (String × PyVal)) : Except PyErr SVGBuilder :=
  match paramCheck ["tag"] kw with
  | .error e => .error e
  | .ok _ => SVGBuilder.endTag (SVGBuilder.start st tag (fix_attrs kw)) tag

/-- Models SVGBuilder.circle. -/
def SVGBuilder.circle (st : SVGBuilder) (cx cy r : PyVal) (extras : List (String × PyVal)) : Except PyErr SVGBuilder :=
  match paramCheck ["cx", "cy", "r"] extras with
  | .error e => .error e
  | .ok _ =>
    match kwMerge [("cx", cx), ("cy", cy), ("r", r)] extras with
    | .error e => .error e
    | .ok kw => SVGBuilder.item st "circle" kw

/-- Models SVGBuilder.line. -/
def SVGBuilder.line (st : SVGBuilder) (x1 y1 x2 y2 : PyVal) (extras : List (String × PyVal)) : Except PyErr SVGBuilder :=
  match paramCheck ["x1", "y1", "x2", "y2"] extras with
  | .error e => .error e
  | .ok _ =>
    match kwMerge [("x1", x1), ("y1", y1), ("x2", x2), ("y2", y2)] extras with
    | .error e => .error e
    | .ok kw => SVGBuilder.item st "line" kw

/-- Models SVGBuilder.rect: the parameters w and h are emitted as the
attributes width and height. -/
def SVGBuilder.rect (st : SVGBuilder) (x y w h : PyVal) (extras : List (String × PyVal)) : Except PyErr SVGBuilder :=
  match paramCheck ["x", "y", "w", "h"] extras with
  | .error e => .error e
  | .ok _ =>
    match kwMerge [("x", x), ("y", y), ("width", w), ("height", h)] extras with
    | .error e => .error e
    | .ok kw => SVGBuilder.item st "rect" kw

/-- Models SVGBuilder.text: start a text element, append the body as
text data, end it. -/
def SVGBuilder.text (st : SVGBuilder) (txt : String) (x y : PyVal) (extras : List (String × PyVal)) : Except PyErr SVGBuilder :=
  match paramCheck ["text", "x", "y"] extras with
  | .error e => .error e
  | .ok _ =>
    match kwMerge [("x", x), ("y", y)] extras with
    | .error e => .error e
    | .ok kw =>
      match SVGBuilder.data (SVGBuilder.start st "text" (fix_attrs kw)) txt with
      | .error e => .error e
      | .ok b2 => SVGBuilder.endTag b2 "text"

/-- Renders the fractional part of a fixed-point number: exactly six
zero-padded decimal digits, most significant first (the fractional digits
of the float format directive). -/
def frac6 (n : ℕ) : String :=
  ⟨[Nat.digitChar (n / 100000 % 10), Nat.digitChar (n / 10000 % 10),
    Nat.digitChar (n / 1000 % 10), Nat.digitChar (n / 100 % 10),
    Nat.digitChar (n / 10 % 10), Nat.digitChar (n % 10)]⟩

/-- Renders a value already scaled by 10^6 as a fixed-point decimal with
six digits after the decimal point. -/
def formatScaled (z : ℤ) : String :=
  (if z < 0 then "-" else "") ++ toString (z.natAbs / 1000000) ++ "." ++ frac6 (z.natAbs % 1000000)

/-- Models the float format directive used in circle_sector: fixed-point
notation with exactly six digits after the decimal point (the value is
scaled, rounded to an integer and rendered). -/
noncomputable def f6 (x : ℝ) : String :=
  formatScaled (round (x * 1000000))

open scoped Classical in
/-- Models the large-arc-flag computation of circle_sector:
1 if abs(theta) > pi else 0. -/
noncomputable def largeArcFlag (θ : ℝ) : ℤ :=
  if |θ| > Real.pi then 1 else 0

open scoped Classical in
/-- Models the sweep-flag computation of circle_sector:
1 if theta > 0 else 0. -/
noncomputable def sweepFlag (θ : ℝ) : ℤ :=
  if θ > 0 then 1 else 0

/-- Models the path data string built by circle_sector: move to the
center, line to the edge point at angle alpha, arc of radii (r, r) with
x-axis-rotation 0 and the two flags to the edge point at angle
alpha + theta, close the path. -/
noncomputable def sector_d (cx cy r α θ : ℝ) : String :=
  "M" ++ f6 cx ++ "," ++ f6 cy ++
  " L" ++ f6 (cx + r * Real.cos α) ++ "," ++ f6 (cy + r * Real.sin α) ++
  " A" ++ f6 r ++ "," ++ f6 r ++ " 0 " ++ toString (largeArcFlag θ) ++ "," ++ toString (sweepFlag θ) ++
  " " ++ f6 (cx + r * Real.cos (α + θ)) ++ "," ++ f6 (cy + r * Real.sin (α + θ)) ++ " Z"

/-- Models SVGBuilder.circle_sector: computes the path data string and
emits a single path element carrying it as the d attribute. -/
noncomputable def SVGBuilder.circle_sector (st : SVGBuilder) (cx cy r α θ : ℝ) (extras : List (String × PyVal)) : Except PyErr SVGBuilder :=
  match paramCheck ["cx", "cy", "r", "alpha", "theta"] extras with
  | .error e => .error e
  | .ok _ =>
    match kwMerge [("d", PyVal.str (sector_d cx cy r α θ))] extras with
    | .error e => .error e
    | .ok kw => SVGBuilder.item st "path" kw

/-- Models _SVGGroup: a handle referencing the tag it must close (the
back-reference to the builder is implicit, the model tracks a single
builder state). -/
structure SVGGroup where
  tag : String

/-- Models _SVGGroup.__exit__: its sole effect is one end call for the
tag the handle was bound to. -/
def exitGroup (gr : SVGGroup) (st : SVGBuilder) : Except PyErr SVGBuilder :=
  SVGBuilder.endTag st gr.tag

/-- Models SVGBuilder.g: open a g element with normalized attributes and
return a scoped handle bound to the g tag. -/
def SVGBuilder.g (st : SVGBuilder) (extras : List (String × PyVal)) : SVGBuilder × SVGGroup :=
  (SVGBuilder.start st "g" (fix_attrs extras), ⟨"g"⟩)

/-- Models SVGBuilder.defs: open a defs element and return a scoped
handle bound to the defs tag. -/
def SVGBuilder.defs (st : SVGBuilder) : SVGBuilder × SVGGroup :=
  (SVGBuilder.start st "defs" [], ⟨"defs"⟩)

/-- Models SVGBuilder.text_group: open a text element with normalized
attributes and return a scoped handle bound to the text tag. -/
def SVGBuilder.text_group (st : SVGBuilder) (x y : PyVal) (extras : List (String × PyVal)) : Except PyErr (SVGBuilder × SVGGroup) :=
  match paramCheck ["x", "y"] extras with
  | .error e => .error e
  | .ok _ =>
    match kwMerge [("x", x), ("y", y)] extras with
    | .error e => .error e
    | .ok kw => .ok (SVGBuilder.start st "text" (fix_attrs kw), ⟨"text"⟩)

/-- The observable outcome of running a block of builder code: the
resulting state, the list of tags passed to end calls made while running
it, and the pending error when the block raised. -/
structure RunRes where
  st : SVGBuilder
  ends : List String
  err : Option PyErr

/-- Models the Python with-statement around a group handle: the body runs
first (it may mutate the state, record its own end calls, and raise);
leaving the scope then invokes the handle exit exactly once on every exit
path. An error raised by the exit call propagates, otherwise the pending
error of the body is kept. -/
def withGroup (gr : SVGGroup) (body : SVGBuilder → RunRes) (st : SVGBuilder) : RunRes :=
  let r := body st
  match exitGroup gr r.st with
  | .ok st2 => ⟨st2, r.ends ++ [gr.tag], r.err⟩
  | .error e => ⟨r.st, r.ends ++ [gr.tag], some e⟩

/-- The arguments handed to the external XML serializer by write: the
completed tree, the destination, the encoding and the XML-declaration
switch. -/
structure SerializedSVG where
  root : Node
  dest : String
  encoding : String
  xmlDecl : Bool

/-- Models SVGBuilder.write: end the root svg element, close the tree
builder and hand the completed tree to the serializer with the given
encoding and XML-declaration flag. -/
def SVGBuilder.write (st : SVGBuilder) (dest enc : String) (decl : Bool) : Except PyErr SerializedSVG :=
  match SVGBuilder.endTag st "svg" with
  | .error e => .error e
  | .ok st1 =>
    match SVGBuilder.close st1 with
    | .error e => .error e
    | .ok root => .ok ⟨root, dest, enc, decl⟩

/-- The builder state produced by an item call in a state whose stack is
top :: rest: the stack keeps the same open elements, with the new
fully-closed node appended as the last child of the innermost one. -/
def afterItem (top : OpenE) (rest : List OpenE) (nd : Node) : SVGBuilder :=
  ⟨⟨top.tag, top.attrs, top.text, top.children ++ [nd]⟩ :: rest, some nd⟩

/-- A minimal builder state with only the root svg element open. -/
def top0 : OpenE := ⟨"svg", [], none, []⟩

/-- A minimal builder state with only the root svg element open. -/
def st0 : SVGBuilder := ⟨[top0], none⟩

/-- Python dict lookup on the association-list model: the value at the
first (hence unique) entry with the given key. -/
def getAttr (d : List (String × String)) (k : String) : Option String :=
  match d with
  | [] => none
  | p :: tl => if p.1 = k then some p.2 else getAttr tl k

theorem paramCheck_ok (names : List String) (extras : List (String × PyVal))
    (h : ∀ p ∈ extras, p.1 ∉ names) : paramCheck names extras = .ok () := by
  unfold paramCheck
  rw [List.find?_eq_none.mpr]
  intro p hp
  simpa using h p hp

theorem kwMerge_ok (geo extras : List (String × PyVal))
    (h : ∀ p ∈ extras, ∀ q ∈ geo, q.1 ≠ p.1) : kwMerge geo extras = .ok (geo ++ extras) := by
  unfold kwMerge
  rw [List.find?_eq_none.mpr]
  intro p hp
  simpa using fun x hmem => h p hp (p.1, x) hmem rfl

theorem item_ok (st : SVGBuilder) (top : OpenE) (rest : List OpenE) (tag : String)
    (kw : List (String × PyVal)) (h : st.stack = top :: rest)
    (htag : ∀ p ∈ kw, p.1 ∉ (["tag"] : List String)) :
    SVGBuilder.item st tag kw = .ok (afterItem top rest (Node.elem tag (fix_attrs kw) none [])) := by
  have hpc := paramCheck_ok ["tag"] kw htag
  simp only [SVGBuilder.item, hpc]
  simp [SVGBuilder.start, SVGBuilder.endTag, afterItem, h]

theorem getAttr_map_set (k v : String) : ∀ (d : List (String × String)), d.any (fun p => p.1 = k) = true →
    getAttr (d.map (fun p => if p.1 = k then (p.1, v) else p)) k = some v := by
  intro d
  induction d with
  | nil => simp
  | cons p tl ih =>
    intro hany
    by_cases hp : p.1 = k
    · simp [getAttr, hp]
    · have htl : tl.any (fun p => p.1 = k) = true := by simpa [hp] using hany
      simpa [getAttr, hp] using ih htl

theorem getAttr_append_last (k v : String) : ∀ (d : List (String × String)), d.any (fun p => p.1 = k) = false →
    getAttr (d ++ [(k, v)]) k = some v := by
  intro d
  induction d with
  | nil => simp [getAttr]
  | cons p tl ih =>
    intro hany
    have hp : ¬(p.1 = k) := by
      intro hc; simp [hc] at hany
    have htl : tl.any (fun p => p.1 = k) = false := by simpa [hp] using hany
    simpa [getAttr, hp] using ih htl

theorem getAttr_dictSet_self (d : List (String × String)) (k v : String) :
    getAttr (dictSet d k v) k = some v := by
  unfold dictSet
  split
  · exact getAttr_map_set k v d (by assumption)
  · rename_i hfalse
    exact getAttr_append_last k v d (Bool.eq_false_iff.mpr hfalse)

theorem getAttr_map_set_ne (k v k2 : String) (h : k2 ≠ k) : ∀ (d : List (String × String)),
    getAttr (d.map (fun p => if p.1 = k then (p.1, v) else p)) k2 = getAttr d k2 := by
  intro d
  induction d with
  | nil => simp
  | cons p tl ih =>
    by_cases hp : p.1 = k
    · have hk2 : ¬(k = k2) := fun hc => h hc.symm
      simp [getAttr, hp, hk2, ih]
    · by_cases hp2 : p.1 = k2
      · simp [getAttr, hp, hp2, h]
      · simp [getAttr, hp, hp2, ih]

theorem getAttr_append_one_ne (k v k2 : String) (h : k2 ≠ k) : ∀ (d : List (String × String)),
    getAttr (d ++ [(k, v)]) k2 = getAttr d k2 := by
  intro d
  induction d with
  | nil =>
    have hk : ¬(k = k2) := fun hc => h hc.symm
    simp [getAttr, hk]
  | cons p tl ih =>
    by_cases hp2 : p.1 = k2
    · simp [getAttr, hp2]
    · simp [getAttr, hp2, ih]

theorem getAttr_dictSet_ne (d : List (String × String)) (k v k2 : String) (h : k2 ≠ k) :
    getAttr (dictSet d k v) k2 = getAttr d k2 := by
  unfold dictSet
  split
  · exact getAttr_map_set_ne k v k2 h d
  · exact getAttr_append_one_ne k v k2 h d

/-- C3: the attribute normalizer maps every input entry to an entry whose
key has every underscore (including multiple occurrences) replaced by a
hyphen, character for character, and whose value is the default string
conversion of the caller-supplied value; the normalized key contains no
underscore. -/
theorem fix_attrs_normalization (kw : List (String × PyVal)) :
    fix_attrs kw = kw.map (fun p => (fixKey p.1, pyStr p.2)) ∧
    ∀ k : String, (fixKey k).data.length = k.data.length ∧
      (∀ j : ℕ, (fixKey k).data[j]? = (k.data[j]?).map (fun c => if c = '_' then '-' else c)) ∧
      '_' ∉ (fixKey k).data := by
  refine ⟨rfl, fun k => ⟨by simp [fixKey], fun j => by simp [fixKey], ?_⟩⟩
  intro hmem
  simp [fixKey, List.mem_map] at hmem
  obtain ⟨a, ha, hstep⟩ := hmem
  by_cases hc : a = '_'
  · simp [hc] at hstep
  · simp [hc] at hstep

/-- C4: an end call for a tag that is not the innermost open element, or
when no element is open (as on a second close of a group handle), returns
an error carrying the expected tag (none when nothing is open) and the
actual tag, and produces no output. -/
theorem end_mismatch_spec (st : SVGBuilder) (tag : String) :
    (st.stack = [] → SVGBuilder.endTag st tag = .error (.endMismatch none tag)) ∧
    (∀ top rest, st.stack = top :: rest → top.tag ≠ tag →
      SVGBuilder.endTag st tag = .error (.endMismatch (some top.tag) tag)) := by
  constructor
  · intro h
    simp [SVGBuilder.endTag, h]
  · intro top rest h hne
    simp [SVGBuilder.endTag, h, hne]

/-- C4 witness: closing a g handle a second time (after the first close
already appended the g element to the root) errors with expected svg
versus actual g; an end call on an exhausted builder errors as well. -/
theorem end_mismatch_spec_w :
    SVGBuilder.endTag (⟨[⟨"svg", [], none, [Node.elem "g" [] none []]⟩], some (Node.elem "g" [] none [])⟩ : SVGBuilder) "g"
      = .error (.endMismatch (some "svg") "g") ∧
    SVGBuilder.endTag (⟨[], none⟩ : SVGBuilder) "g" = .error (.endMismatch none "g") :=
  ⟨(end_mismatch_spec ⟨[⟨"svg", [], none, [Node.elem "g" [] none []]⟩], some (Node.elem "g" [] none [])⟩ "g").2
      ⟨"svg", [], none, [Node.elem "g" [] none []]⟩ [] rfl (by decide),
   (end_mismatch_spec ⟨[], none⟩ "g").1 rfl⟩

/-- C2 counterexample: a circle call whose extra attributes carry the key
cx raises a duplicate-keyword error, so no element with the explicit
geometry value is emitted. -/
theorem circle_extra_cx_counterexample :
    SVGBuilder.circle st0 (PyVal.int 1) (PyVal.int 2) (PyVal.int 3) [("cx", PyVal.int 5)]
      = .error (.duplicateKeyword "cx") := rfl

theorem paramCheck_mem_error (names : List String) (extras : List (String × PyVal))
    (p : String × PyVal) (hp : p ∈ extras) (hmem : p.1 ∈ names) :
    ∃ k, paramCheck names extras = .error (.duplicateKeyword k) := by
  unfold paramCheck
  cases hf : extras.find? (fun q => names.contains q.1) with
  | some q => exact ⟨q.1, rfl⟩
  | none => exact absurd hmem (by simpa using List.find?_eq_none.mp hf p hp)

theorem kwMerge_mem_error (geo extras : List (String × PyVal))
    (p : String × PyVal) (hp : p ∈ extras) (q : String × PyVal) (hq : q ∈ geo) (heq : q.1 = p.1) :
    ∃ k, kwMerge geo extras = .error (.duplicateKeyword k) := by
  unfold kwMerge
  cases hf : extras.find? (fun r2 => geo.any (fun q2 => q2.1 = r2.1)) with
  | some r2 => exact ⟨r2.1, rfl⟩
  | none =>
    have hnone := List.find?_eq_none.mp hf p hp
    simp at hnone
    exact absurd (show (p.1, q.2) ∈ geo by rw [← heq]; exact hq) (hnone q.2)

theorem paramCheck_error_shape (names : List String) (extras : List (String × PyVal)) (e : PyErr)
    (h : paramCheck names extras = .error e) : ∃ k, e = .duplicateKeyword k := by
  unfold paramCheck at h
  cases hf : extras.find? (fun q => names.contains q.1) with
  | some q =>
    rw [hf] at h
    injection h with h2
    exact ⟨q.1, h2.symm⟩
  | none =>
    rw [hf] at h
    cases h

/-- C2 amended: when a caller-supplied extra attribute has the same
post-normalization name as an explicit geometry parameter of circle,
line, rect, text or circle_sector (for rect also the emitted width and
height attribute names), the call raises a duplicate-keyword error and no
element is emitted; the explicit value does not silently win. -/
theorem shape_extra_collision_raises (st : SVGBuilder) (a b c d2 : PyVal) (txt : String)
    (rcx rcy rr ra rt : ℝ) (extras : List (String × PyVal)) :
    ((∃ p ∈ extras, p.1 ∈ (["cx", "cy", "r"] : List String)) →
      ∃ k, SVGBuilder.circle st a b c extras = .error (.duplicateKeyword k)) ∧
    ((∃ p ∈ extras, p.1 ∈ (["x1", "y1", "x2", "y2"] : List String)) →
      ∃ k, SVGBuilder.line st a b c d2 extras = .error (.duplicateKeyword k)) ∧
    ((∃ p ∈ extras, p.1 ∈ (["x", "y", "w", "h", "width", "height"] : List String)) →
      ∃ k, SVGBuilder.rect st a b c d2 extras = .error (.duplicateKeyword k)) ∧
    ((∃ p ∈ extras, p.1 ∈ (["text", "x", "y"] : List String)) →
      ∃ k, SVGBuilder.text st txt a b extras = .error (.duplicateKeyword k)) ∧
    ((∃ p ∈ extras, p.1 ∈ (["cx", "cy", "r", "alpha", "theta"] : List String)) →
      ∃ k, SVGBuilder.circle_sector st rcx rcy rr ra rt extras = .error (.duplicateKeyword k)) := by
  refine ⟨?_, ?_, ?_, ?_, ?_⟩
  · rintro ⟨p, hp, hmem⟩
    obtain ⟨k, hk⟩ := paramCheck_mem_error ["cx", "cy", "r"] extras p hp hmem
    exact ⟨k, by simp [SVGBuilder.circle, hk]⟩
  · rintro ⟨p, hp, hmem⟩
    obtain ⟨k, hk⟩ := paramCheck_mem_error ["x1", "y1", "x2", "y2"] extras p hp hmem
    exact ⟨k, by simp [SVGBuilder.line, hk]⟩
  · rintro ⟨p, hp, hmem⟩
    by_cases h4 : p.1 ∈ (["x", "y", "w", "h"] : List String)
    · obtain ⟨k, hk⟩ := paramCheck_mem_error ["x", "y", "w", "h"] extras p hp h4
      exact ⟨k, by simp [SVGBuilder.rect, hk]⟩
    · have hwh : p.1 = "width" ∨ p.1 = "height" := by
        simp at hmem h4
        tauto
      cases hpc : paramCheck ["x", "y", "w", "h"] extras with
      | error e =>
        obtain ⟨k, hk⟩ := paramCheck_error_shape ["x", "y", "w", "h"] extras e hpc
        exact ⟨k, by simp [SVGBuilder.rect, hpc, hk]⟩
      | ok u =>
        rcases hwh with hw | hh
        · obtain ⟨k, hk⟩ := kwMerge_mem_error [("x", a), ("y", b), ("width", c), ("height", d2)] extras
            p hp ("width", c) (by simp) hw.symm
          exact ⟨k, by simp [SVGBuilder.rect, hpc, hk]⟩
        · obtain ⟨k, hk⟩ := kwMerge_mem_error [("x", a), ("y", b), ("width", c), ("height", d2)] extras
            p hp ("height", d2) (by simp) hh.symm
          exact ⟨k, by simp [SVGBuilder.rect, hpc, hk]⟩
  · rintro ⟨p, hp, hmem⟩
    obtain ⟨k, hk⟩ := paramCheck_mem_error ["text", "x", "y"] extras p hp hmem
    exact ⟨k, by simp [SVGBuilder.text, hk]⟩
  · rintro ⟨p, hp, hmem⟩
    obtain ⟨k, hk⟩ := paramCheck_mem_error ["cx", "cy", "r", "alpha", "theta"] extras p hp hmem
    exact ⟨k, by simp [SVGBuilder.circle_sector, hk]⟩

/-- C2 amended witness: the circle call with a colliding cx extra raises
a duplicate-keyword error. -/
theorem shape_extra_collision_raises_w :
    ∃ k, SVGBuilder.circle st0 (PyVal.int 1) (PyVal.int 2) (PyVal.int 3) [("cx", PyVal.int 5)]
      = .error (.duplicateKeyword k) :=
  (shape_extra_collision_raises st0 (PyVal.int 1) (PyVal.int 2) (PyVal.int 3) (PyVal.int 0) "t"
      0 0 1 0 1 [("cx", PyVal.int 5)]).1 ⟨("cx", PyVal.int 5), by simp, by simp⟩

/-- C7: every shape operation is a compound open-then-close action: run
in a state whose stack is top :: rest (and with extras that do not
collide with the bound parameter names), it succeeds and returns the
state with exactly the same open elements, where the innermost open
element has the new fully-closed element appended as its last child. -/
theorem shape_ops_balanced (st : SVGBuilder) (top : OpenE) (rest : List OpenE)
    (h : st.stack = top :: rest) (a b c d2 : PyVal) (txt : String) (rcx rcy rr ra rt : ℝ)
    (extras : List (String × PyVal)) :
    ((∀ p ∈ extras, p.1 ∉ (["cx", "cy", "r", "tag"] : List String)) →
      SVGBuilder.circle st a b c extras
        = .ok (afterItem top rest (Node.elem "circle" (fix_attrs ([("cx", a), ("cy", b), ("r", c)] ++ extras)) none []))) ∧
    ((∀ p ∈ extras, p.1 ∉ (["x1", "y1", "x2", "y2", "tag"] : List String)) →
      SVGBuilder.line st a b c d2 extras
        = .ok (afterItem top rest (Node.elem "line" (fix_attrs ([("x1", a), ("y1", b), ("x2", c), ("y2", d2)] ++ extras)) none []))) ∧
    ((∀ p ∈ extras, p.1 ∉ (["x", "y", "w", "h", "width", "height", "tag"] : List String)) →
      SVGBuilder.rect st a b c d2 extras
        = .ok (afterItem top rest (Node.elem "rect" (fix_attrs ([("x", a), ("y", b), ("width", c), ("height", d2)] ++ extras)) none []))) ∧
    ((∀ p ∈ extras, p.1 ∉ (["text", "x", "y"] : List String)) →
      SVGBuilder.text st txt a b extras
        = .ok (afterItem top rest (Node.elem "text" (fix_attrs ([("x", a), ("y", b)] ++ extras)) (some txt) []))) ∧
    ((∀ p ∈ extras, p.1 ∉ (["cx", "cy", "r", "alpha", "theta", "d", "tag"] : List String)) →
      SVGBuilder.circle_sector st rcx rcy rr ra rt extras
        = .ok (afterItem top rest (Node.elem "path" (fix_attrs ([("d", PyVal.str (sector_d rcx rcy rr ra rt))] ++ extras)) none []))) := by
  refine ⟨?_, ?_, ?_, ?_, ?_⟩
  · intro hext
    have hpc := paramCheck_ok ["cx", "cy", "r"] extras (by
      intro p hp hmem
      refine hext p hp ?_
      simp at hmem ⊢
      tauto)
    have hkm := kwMerge_ok [("cx", a), ("cy", b), ("r", c)] extras (by
      intro p hp q hq heq
      refine hext p hp ?_
      rw [← heq]
      simp at hq
      rcases hq with h1 | h1 | h1 <;> simp [h1])
    have htag : ∀ p ∈ [("cx", a), ("cy", b), ("r", c)] ++ extras, p.1 ∉ (["tag"] : List String) := by
      intro p hp
      rcases List.mem_append.mp hp with hg | he
      · simp at hg
        rcases hg with h1 | h1 | h1 <;> simp [h1]
      · have h2 := hext p he
        simp at h2 ⊢
        tauto
    simp only [SVGBuilder.circle, hpc, hkm]
    exact item_ok st top rest "circle" ([("cx", a), ("cy", b), ("r", c)] ++ extras) h htag
  · intro hext
    have hpc := paramCheck_ok ["x1", "y1", "x2", "y2"] extras (by
      intro p hp hmem
      refine hext p hp ?_
      simp at hmem ⊢
      tauto)
    have hkm := kwMerge_ok [("x1", a), ("y1", b), ("x2", c), ("y2", d2)] extras (by
      intro p hp q hq heq
      refine hext p hp ?_
      rw [← heq]
      simp at hq
      rcases hq with h1 | h1 | h1 | h1 <;> simp [h1])
    have htag : ∀ p ∈ [("x1", a), ("y1", b), ("x2", c), ("y2", d2)] ++ extras, p.1 ∉ (["tag"] : List String) := by
      intro p hp
      rcases List.mem_append.mp hp with hg | he
      · simp at hg
        rcases hg with h1 | h1 | h1 | h1 <;> simp [h1]
      · have h2 := hext p he
        simp at h2 ⊢
        tauto
    simp only [SVGBuilder.line, hpc, hkm]
    exact item_ok st top rest "line" ([("x1", a), ("y1", b), ("x2", c), ("y2", d2)] ++ extras) h htag
  · intro hext
    have hpc := paramCheck_ok ["x", "y", "w", "h"] extras (by
      intro p hp hmem
      refine hext p hp ?_
      simp at hmem ⊢
      tauto)
    have hkm := kwMerge_ok [("x", a), ("y", b), ("width", c), ("height", d2)] extras (by
      intro p hp q hq heq
      refine hext p hp ?_
      rw [← heq]
      simp at hq ⊢
      rcases hq with h1 | h1 | h1 | h1 <;> simp [h1])
    have htag : ∀ p ∈ [("x", a), ("y", b), ("width", c), ("height", d2)] ++ extras, p.1 ∉ (["tag"] : List String) := by
      intro p hp
      rcases List.mem_append.mp hp with hg | he
      · simp at hg
        rcases hg with h1 | h1 | h1 | h1 <;> simp [h1]
      · have h2 := hext p he
        simp at h2 ⊢
        tauto
    simp only [SVGBuilder.rect, hpc, hkm]
    exact item_ok st top rest "rect" ([("x", a), ("y", b), ("width", c), ("height", d2)] ++ extras) h htag
  · intro hext
    have hpc := paramCheck_ok ["text", "x", "y"] extras hext
    have hkm := kwMerge_ok [("x", a), ("y", b)] extras (by
      intro p hp q hq heq
      refine hext p hp ?_
      rw [← heq]
      simp at hq ⊢
      rcases hq with h1 | h1 <;> simp [h1])
    simp only [SVGBuilder.text, hpc, hkm]
    simp [SVGBuilder.start, SVGBuilder.data, SVGBuilder.endTag, afterItem, h]
  · intro hext
    have hpc := paramCheck_ok ["cx", "cy", "r", "alpha", "theta"] extras (by
      intro p hp hmem
      refine hext p hp ?_
      simp at hmem ⊢
      tauto)
    have hkm := kwMerge_ok [("d", PyVal.str (sector_d rcx rcy rr ra rt))] extras (by
      intro p hp q hq heq
      refine hext p hp ?_
      rw [← heq]
      simp at hq ⊢
      simp [hq])
    have htag : ∀ p ∈ [("d", PyVal.str (sector_d rcx rcy rr ra rt))] ++ extras, p.1 ∉ (["tag"] : List String) := by
      intro p hp
      rcases List.mem_append.mp hp with hg | he
      · simp at hg
        simp [hg]
      · have h2 := hext p he
        simp at h2 ⊢
        tauto
    simp only [SVGBuilder.circle_sector, hpc, hkm]
    exact item_ok st top rest "path" ([("d", PyVal.str (sector_d rcx rcy rr ra rt))] ++ extras) h htag

/-- C7 witness: all five shape operations run on the minimal state with
only the root open, with no extra attributes. -/
theorem shape_ops_balanced_w :
    SVGBuilder.circle st0 (PyVal.int 1) (PyVal.int 2) (PyVal.int 3) []
      = .ok (afterItem top0 [] (Node.elem "circle" (fix_attrs ([("cx", PyVal.int 1), ("cy", PyVal.int 2), ("r", PyVal.int 3)] ++ ([] : List (String × PyVal)))) none [])) ∧
    SVGBuilder.line st0 (PyVal.int 1) (PyVal.int 2) (PyVal.int 3) (PyVal.int 4) []
      = .ok (afterItem top0 [] (Node.elem "line" (fix_attrs ([("x1", PyVal.int 1), ("y1", PyVal.int 2), ("x2", PyVal.int 3), ("y2", PyVal.int 4)] ++ ([] : List (String × PyVal)))) none [])) ∧
    SVGBuilder.rect st0 (PyVal.int 1) (PyVal.int 2) (PyVal.int 3) (PyVal.int 4) []
      = .ok (afterItem top0 [] (Node.elem "rect" (fix_attrs ([("x", PyVal.int 1), ("y", PyVal.int 2), ("width", PyVal.int 3), ("height", PyVal.int 4)] ++ ([] : List (String × PyVal)))) none [])) ∧
    SVGBuilder.text st0 "hi" (PyVal.int 1) (PyVal.int 2) []
      = .ok (afterItem top0 [] (Node.elem "text" (fix_attrs ([("x", PyVal.int 1), ("y", PyVal.int 2)] ++ ([] : List (String × PyVal)))) (some "hi") [])) ∧
    SVGBuilder.circle_sector st0 0 0 1 0 1 []
      = .ok (afterItem top0 [] (Node.elem "path" (fix_attrs ([("d", PyVal.str (sector_d 0 0 1 0 1))] ++ ([] : List (String × PyVal)))) none [])) := by
  have t := shape_ops_balanced st0 top0 [] rfl (PyVal.int 1) (PyVal.int 2) (PyVal.int 3) (PyVal.int 4) "hi" 0 0 1 0 1 []
  exact ⟨t.1 (by simp), t.2.1 (by simp), t.2.2.1 (by simp), t.2.2.2.1 (by simp), t.2.2.2.2 (by simp)⟩

/-- C8: the handles returned by g, defs and text_group are bound to the
tags g, defs and text respectively; the exit action of a handle is one
end call for exactly its bound tag; and a with-scope around a handle adds
exactly one end call for that tag to whatever the body did, on every exit
path (the equation holds whether or not the body left a pending error). -/
theorem group_scope_spec (st : SVGBuilder) (extras : List (String × PyVal)) (x y : PyVal)
    (gr : SVGGroup) (body : SVGBuilder → RunRes) :
    (SVGBuilder.g st extras).2.tag = "g" ∧
    (SVGBuilder.defs st).2.tag = "defs" ∧
    (∀ st2 h2, SVGBuilder.text_group st x y extras = .ok (st2, h2) → h2.tag = "text") ∧
    (∀ s, exitGroup gr s = SVGBuilder.endTag s gr.tag) ∧
    (withGroup gr body st).ends = (body st).ends ++ [gr.tag] := by
  refine ⟨rfl, rfl, ?_, fun s => rfl, ?_⟩
  · intro st2 h2 hok
    unfold SVGBuilder.text_group at hok
    cases hpc : paramCheck ["x", "y"] extras with
    | error e =>
      rw [hpc] at hok
      cases hok
    | ok u =>
      rw [hpc] at hok
      cases hkm : kwMerge [("x", x), ("y", y)] extras with
      | error e =>
        rw [hkm] at hok
        cases hok
      | ok kw =>
        rw [hkm] at hok
        simp at hok
        rw [← hok.2]
  · unfold withGroup
    dsimp only
    cases hE : exitGroup gr (body st).st with
    | ok st2 => rfl
    | error e => rfl

/-- C8 witness: a g handle on the minimal state is bound to the g tag,
and a successfully opened text_group handle is bound to the text tag. -/
theorem group_scope_spec_w :
    (SVGBuilder.g st0 []).2.tag = "g" ∧ (SVGGroup.mk "text").tag = "text" :=
  ⟨(group_scope_spec st0 [] (PyVal.int 1) (PyVal.int 2) ⟨"g"⟩ (fun b => ⟨b, [], none⟩)).1,
   (group_scope_spec st0 [] (PyVal.int 1) (PyVal.int 2) ⟨"g"⟩ (fun b => ⟨b, [], none⟩)).2.2.1
     (SVGBuilder.start st0 "text" (fix_attrs [("x", PyVal.int 1), ("y", PyVal.int 2)])) ⟨"text"⟩ rfl⟩

/-- C5: write on a state whose only open element is the svg root closes
it and hands the completed tree, the destination, the encoding and the
XML-declaration flag to the serializer; when any element besides the root
is still open, write fails with an error and produces no serializer call
(it does not silently close the nested elements). -/
theorem write_spec (st : SVGBuilder) (dest enc : String) (decl : Bool) :
    (∀ e, st.stack = [e] → e.tag = "svg" →
      SVGBuilder.write st dest enc decl = .ok ⟨Node.elem "svg" e.attrs e.text e.children, dest, enc, decl⟩) ∧
    (2 ≤ st.stack.length → ∃ er, SVGBuilder.write st dest enc decl = .error er) := by
  constructor
  · intro e h he
    simp [SVGBuilder.write, SVGBuilder.endTag, SVGBuilder.close, h, he]
  · intro hlen
    cases hst : st.stack with
    | nil =>
      rw [hst] at hlen
      simp at hlen
    | cons a tl =>
      cases tl with
      | nil =>
        rw [hst] at hlen
        simp at hlen
      | cons b tl2 =>
        by_cases hg : a.tag = "svg"
        · exact ⟨.missingEndTags, by simp [SVGBuilder.write, SVGBuilder.endTag, SVGBuilder.close, hst, hg]⟩
        · exact ⟨.endMismatch (some a.tag) "svg", by simp [SVGBuilder.write, SVGBuilder.endTag, hst, hg]⟩

/-- C5 witness: write succeeds on the minimal state with only the root
open and fails on a state that still has an open g element. -/
theorem write_spec_w :
    SVGBuilder.write st0 "out.svg" "UTF-8" true = .ok ⟨Node.elem "svg" top0.attrs top0.text top0.children, "out.svg", "UTF-8", true⟩ ∧
    (∃ er, SVGBuilder.write (⟨[⟨"g", [], none, []⟩, top0], none⟩ : SVGBuilder) "out.svg" "UTF-8" true = .error er) :=
  ⟨(write_spec st0 "out.svg" "UTF-8" true).1 top0 rfl rfl,
   (write_spec ⟨[⟨"g", [], none, []⟩, top0], none⟩ "out.svg" "UTF-8" true).2 (by decide)⟩

/-- The root attribute dict produced by constructing with width 100 and
height 50 and no extras: the fixed xmlns and version entries first, then
width and height. -/
def svgAttrs100x50 : List (String × String) :=
  [("xmlns", "http://www.w3.org/2000/svg"), ("version", "1.1"), ("width", "100"), ("height", "50")]

/-- C6: constructing with width 100 and height 50 and writing immediately
produces one root element named svg whose attribute dict carries
width 100, height 50, the SVG namespace and version 1.1, and whose only
child (hence first, preceding any other content) is one comment node with
the literal provenance text followed by the timestamp. -/
theorem init_write_root_spec (ts dest enc : String) (decl : Bool) :
    SVGBuilder.init (some (PyVal.int 100)) (some (PyVal.int 50)) [] ts
      = .ok ⟨[⟨"svg", svgAttrs100x50, none, [Node.comment ("vbl-stats svg generated at " ++ ts)]⟩], none⟩ ∧
    SVGBuilder.write ⟨[⟨"svg", svgAttrs100x50, none, [Node.comment ("vbl-stats svg generated at " ++ ts)]⟩], none⟩ dest enc decl
      = .ok ⟨Node.elem "svg" svgAttrs100x50 none [Node.comment ("vbl-stats svg generated at " ++ ts)], dest, enc, decl⟩ ∧
    getAttr svgAttrs100x50 "width" = some "100" ∧ getAttr svgAttrs100x50 "height" = some "50" ∧
    getAttr svgAttrs100x50 "xmlns" = some "http://www.w3.org/2000/svg" ∧ getAttr svgAttrs100x50 "version" = some "1.1" :=
  ⟨rfl, rfl, rfl, rfl, rfl, rfl⟩

/-- C10: a construction-time extra attribute named xmlns or version
raises a duplicate-keyword error instead of merging or overriding, while
the explicit width and height parameters are assigned into the attribute
dict after the normalized extras and therefore always carry their given
values on the opened root. -/
theorem init_fixed_attrs_spec (extras : List (String × PyVal)) (ts : String) (w hv : PyVal) :
    ((∃ p ∈ extras, p.1 = "xmlns" ∨ p.1 = "version") →
      ∃ k, SVGBuilder.init (some w) (some hv) extras ts = .error (.duplicateKeyword k)) ∧
    (∀ st e rest, SVGBuilder.init (some w) (some hv) extras ts = .ok st → st.stack = e :: rest →
      getAttr e.attrs "width" = some (pyStr w) ∧ getAttr e.attrs "height" = some (pyStr hv)) := by
  constructor
  · rintro ⟨p, hp, hor⟩
    cases hpc : paramCheck ["width", "height"] extras with
    | error e =>
      obtain ⟨k, hk⟩ := paramCheck_error_shape ["width", "height"] extras e hpc
      exact ⟨k, by simp [SVGBuilder.init, hpc, hk]⟩
    | ok u =>
      rcases hor with hx | hv2
      · obtain ⟨k, hk⟩ := kwMerge_mem_error
          [("xmlns", PyVal.str "http://www.w3.org/2000/svg"), ("version", PyVal.str "1.1")] extras
          p hp ("xmlns", PyVal.str "http://www.w3.org/2000/svg") (by simp) hx.symm
        exact ⟨k, by simp [SVGBuilder.init, hpc, hk]⟩
      · obtain ⟨k, hk⟩ := kwMerge_mem_error
          [("xmlns", PyVal.str "http://www.w3.org/2000/svg"), ("version", PyVal.str "1.1")] extras
          p hp ("version", PyVal.str "1.1") (by simp) hv2.symm
        exact ⟨k, by simp [SVGBuilder.init, hpc, hk]⟩
  · intro st e rest hok hstack
    unfold SVGBuilder.init at hok
    cases hpc : paramCheck ["width", "height"] extras with
    | error e2 =>
      rw [hpc] at hok
      cases hok
    | ok u =>
      rw [hpc] at hok
      cases hkm : kwMerge [("xmlns", PyVal.str "http://www.w3.org/2000/svg"), ("version", PyVal.str "1.1")] extras with
      | error e2 =>
        rw [hkm] at hok
        cases hok
      | ok merged =>
        rw [hkm] at hok
        simp only [SVGBuilder.start, appendChildTop] at hok
        injection hok with h1
        rw [← h1] at hstack
        simp at hstack
        rw [← hstack.1]
        constructor
        · rw [getAttr_dictSet_ne _ "height" (pyStr hv) "width" (by decide)]
          exact getAttr_dictSet_self _ "width" (pyStr w)
        · exact getAttr_dictSet_self _ "height" (pyStr hv)

/-- C10 witness: an xmlns extra raises a duplicate-keyword error, and the
normal construction with width 100 and height 50 carries both values on
the opened root. -/
theorem init_fixed_attrs_spec_w :
    (∃ k, SVGBuilder.init (some (PyVal.int 1)) (some (PyVal.int 2)) [("xmlns", PyVal.str "z")] "t"
      = .error (.duplicateKeyword k)) ∧
    (getAttr svgAttrs100x50 "width" = some (pyStr (PyVal.int 100)) ∧
     getAttr svgAttrs100x50 "height" = some (pyStr (PyVal.int 50))) :=
  ⟨(init_fixed_attrs_spec [("xmlns", PyVal.str "z")] "t" (PyVal.int 1) (PyVal.int 2)).1
      ⟨("xmlns", PyVal.str "z"), by simp, Or.inl rfl⟩,
   (init_fixed_attrs_spec [] "t" (PyVal.int 100) (PyVal.int 50)).2
      ⟨[⟨"svg", svgAttrs100x50, none, [Node.comment ("vbl-stats svg generated at " ++ "t")]⟩], none⟩
      ⟨"svg", svgAttrs100x50, none, [Node.comment ("vbl-stats svg generated at " ++ "t")]⟩ [] rfl rfl⟩

/-- C1: circle_sector emits a single path element whose path data moves
to the center, draws a line to the edge point at angle alpha, then an arc
of radii (r, r) with x-axis-rotation 0 ending at the edge point at angle
alpha plus theta, followed by a close-path Z; the large-arc-flag is 1
exactly when the absolute sweep exceeds pi (else 0) and the sweep-flag is
1 exactly when the sweep is positive (else 0). -/
theorem circle_sector_spec (st : SVGBuilder) (top : OpenE) (rest : List OpenE)
    (h : st.stack = top :: rest) (cx cy r α θ : ℝ) (extras : List (String × PyVal))
    (h1 : ∀ p ∈ extras, p.1 ∉ (["cx", "cy", "r", "alpha", "theta"] : List String))
    (h2 : ∀ p ∈ extras, p.1 ∉ (["d", "tag"] : List String)) :
    SVGBuilder.circle_sector st cx cy r α θ extras
      = .ok (afterItem top rest (Node.elem "path" (fix_attrs ([("d", PyVal.str (sector_d cx cy r α θ))] ++ extras)) none [])) ∧
    sector_d cx cy r α θ
      = "M" ++ f6 cx ++ "," ++ f6 cy ++ " L" ++ f6 (cx + r * Real.cos α) ++ "," ++ f6 (cy + r * Real.sin α)
        ++ " A" ++ f6 r ++ "," ++ f6 r ++ " 0 " ++ toString (largeArcFlag θ) ++ "," ++ toString (sweepFlag θ)
        ++ " " ++ f6 (cx + r * Real.cos (α + θ)) ++ "," ++ f6 (cy + r * Real.sin (α + θ)) ++ " Z" ∧
    (largeArcFlag θ = 1 ↔ |θ| > Real.pi) ∧ (largeArcFlag θ = 0 ↔ ¬(|θ| > Real.pi)) ∧
    (sweepFlag θ = 1 ↔ θ > 0) ∧ (sweepFlag θ = 0 ↔ ¬(θ > 0)) := by
  refine ⟨?_, rfl, ?_, ?_, ?_, ?_⟩
  · have hpc := paramCheck_ok ["cx", "cy", "r", "alpha", "theta"] extras h1
    have hkm := kwMerge_ok [("d", PyVal.str (sector_d cx cy r α θ))] extras (by
      intro p hp q hq heq
      simp at hq
      refine absurd ?_ (h2 p hp)
      rw [← heq, hq]
      simp)
    have htag : ∀ p ∈ [("d", PyVal.str (sector_d cx cy r α θ))] ++ extras, p.1 ∉ (["tag"] : List String) := by
      intro p hp
      rcases List.mem_append.mp hp with hg | he
      · simp at hg
        simp [hg]
      · have h3 := h2 p he
        simp at h3 ⊢
        tauto
    simp only [SVGBuilder.circle_sector, hpc, hkm]
    exact item_ok st top rest "path" ([("d", PyVal.str (sector_d cx cy r α θ))] ++ extras) h htag
  · unfold largeArcFlag
    split_ifs with hθ <;> simp [hθ]
  · unfold largeArcFlag
    split_ifs with hθ <;> simp [hθ]
  · unfold sweepFlag
    split_ifs with hθ <;> simp [hθ]
  · unfold sweepFlag
    split_ifs with hθ <;> simp [hθ]

/-- C1 witness: circle_sector on the minimal state emits the single path
element carrying the computed path data. -/
theorem circle_sector_spec_w :
    SVGBuilder.circle_sector st0 0 0 1 0 1 []
      = .ok (afterItem top0 [] (Node.elem "path" (fix_attrs ([("d", PyVal.str (sector_d 0 0 1 0 1))] ++ ([] : List (String × PyVal)))) none [])) :=
  (circle_sector_spec st0 top0 [] rfl 0 0 1 0 1 [] (by simp) (by simp)).1

/-- C9: every coordinate and radius of the path data built by
circle_sector is rendered through the fixed-point formatter f6, which
always produces a fractional part of exactly six decimal digits (radius 1
renders as 1.000000), while every other shape attribute value is the
default string conversion of the caller-supplied value. -/
theorem sector_d_formatting_spec :
    (∀ cx cy r α θ : ℝ, sector_d cx cy r α θ
      = "M" ++ f6 cx ++ "," ++ f6 cy ++ " L" ++ f6 (cx + r * Real.cos α) ++ "," ++ f6 (cy + r * Real.sin α)
        ++ " A" ++ f6 r ++ "," ++ f6 r ++ " 0 " ++ toString (largeArcFlag θ) ++ "," ++ toString (sweepFlag θ)
        ++ " " ++ f6 (cx + r * Real.cos (α + θ)) ++ "," ++ f6 (cy + r * Real.sin (α + θ)) ++ " Z") ∧
    (∀ x : ℝ, ∃ pre post, f6 x = pre ++ "." ++ post ∧ post.length = 6 ∧ ∀ c ∈ post.data, c.isDigit = true) ∧
    f6 1 = "1.000000" ∧
    (∀ kw : List (String × PyVal), (fix_attrs kw).map Prod.snd = kw.map (fun p => pyStr p.2)) := by
  refine ⟨fun cx cy r α θ => rfl, ?_, ?_, fun kw => by simp [fix_attrs]⟩
  · intro x
    refine ⟨(if round (x * 1000000) < 0 then "-" else "") ++ toString ((round (x * 1000000)).natAbs / 1000000),
      frac6 ((round (x * 1000000)).natAbs % 1000000), rfl, rfl, ?_⟩
    intro c hc
    have h10 : ∀ m : ℕ, (Nat.digitChar (m % 10)).isDigit = true := by
      intro m
      have hlt : m % 10 < 10 := Nat.mod_lt m (by decide)
      revert hlt
      generalize m % 10 = d
      intro hlt
      interval_cases d <;> rfl
    simp [frac6] at hc
    rcases hc with hcc | hcc | hcc | hcc | hcc | hcc <;> (rw [hcc]; exact h10 _)
  · have h : ((1 : ℝ) * 1000000) = ((1000000 : ℤ) : ℝ) := by norm_num
    unfold f6
    rw [h, round_intCast]
    rfl
